import Mathlib

/-!
Verification development for the pkn advisory bot.

Shallow embedding of the core of the repository: the value-conversion
helpers, the timeout helper, the bot hand loop cursor protocol, the
decision-query retry protocol, the manual oracle response handling, the
hand-over predicate, and the Observer (PuppeteerService) action
primitives.  Chip amounts and big blinds are embedded as rationals,
log-line ids as naturals (the source uses created-timestamp strings
ordered lexicographically; 0 stands for the initial empty watermark).
-/

namespace PKN

/-- Action kinds of a BotAction, as accepted by the response parser and
dispatched by Bot.performBotAction: check, call, bet, raise, fold, all-in. -/
inductive ActionKind where
  | check
  | call
  | bet
  | raise
  | fold
  | allIn
deriving DecidableEq, Repr

/-- BotAction from interfaces/ai-client-interfaces.ts as used throughout
src: an action kind string and a bet size in big blinds. -/
structure BotAction where
  action_str : ActionKind
  bet_size_in_BBs : ℚ
deriving DecidableEq, Repr

/-- Default action literal used in ManualChatGPTService.query:
action_str fold, bet_size_in_BBs 0. -/
def defaultFoldAction : BotAction :=
  { action_str := ActionKind.fold, bet_size_in_BBs := 0 }

/-- Response value from utils/error-handling-utils.ts: every Observer
primitive resolves to a success record (code, data, msg) or an error
record (code, error). -/
inductive Response (α : Type) where
  | success (data : α) (msg : String)
  | error (msg : String)
deriving DecidableEq, Repr

/-- Player snapshot entry of the GameState produced by
PuppeteerService.getTableState (interface Player in the scraper
variants). -/
structure PlayerState where
  seat : Nat
  name : String
  stack : ℚ
  bet : ℚ
  isSelf : Bool
  isDealer : Bool
  isCurrentTurn : Bool
  isFolded : Bool
  isAllIn : Bool
  holeCards : List String
deriving DecidableEq, Repr

/-- GameState snapshot produced by PuppeteerService.getTableState:
players, community cards and pot. -/
structure GameState where
  players : List PlayerState
  communityCards : List String
  pot : ℚ
deriving DecidableEq, Repr

/-- Configuration failure of the value-conversion pair. -/
inductive ConfigErr where
  | configurationError
deriving DecidableEq, Repr

/-- Modelled from the spec: convertToBBs of
utils/value-conversion-utils.ts is absent from src; section 4.1 defines
toBigBlinds(chips, big_blind) as chips / big_blind, failing with a
ConfigurationError exactly when big_blind is not positive. -/
def convertToBBsChecked (chips big_blind : ℚ) : Except ConfigErr ℚ :=
  if big_blind ≤ 0 then Except.error ConfigErr.configurationError
  else Except.ok (chips / big_blind)

/-- Modelled from the spec: convertToValue of
utils/value-conversion-utils.ts is absent from src; section 4.1 defines
toChips(big_blinds, big_blind) as the inverse of toBigBlinds, failing
with a ConfigurationError exactly when big_blind is not positive. -/
def convertToValueChecked (big_blinds big_blind : ℚ) : Except ConfigErr ℚ :=
  if big_blind ≤ 0 then Except.error ConfigErr.configurationError
  else Except.ok (big_blinds * big_blind)

/-- Infallible form of convertToValue as it is invoked inside
Bot.performBotAction and Bot.displayAdvice, where the big blind of the
running game is already positive: big blinds times the big-blind size. -/
def convertToValue (big_blinds big_blind : ℚ) : ℚ :=
  big_blinds * big_blind

/-- Infallible form of convertToBBs as it is invoked inside the bot hand
loop: chips divided by the big-blind size. -/
def convertToBBs (chips big_blind : ℚ) : ℚ :=
  chips / big_blind

/-- Round trip of the checked conversion pair: convert chips to big
blinds and back. -/
def roundTrip (x big_blind : ℚ) : Except ConfigErr ℚ :=
  match convertToBBsChecked x big_blind with
  | Except.error e => Except.error e
  | Except.ok b => convertToValueChecked b big_blind

/-- computeTimeout from helpers/bot-helper.ts:
1000 * (num_players - 1) * max_turn_length * num_streets milliseconds. -/
def computeTimeout (num_players max_turn_length num_streets : ℤ) : ℤ :=
  1000 * (num_players - 1) * max_turn_length * num_streets

/-- Trace of one run of Bot.queryBotAction: the final result, the number
of Oracle invocations it made, and the list of back-off delays (ms) slept
between consecutive attempts. -/
structure QueryTrace where
  result : Except String BotAction
  attempts : Nat
  delays : List Nat
deriving Repr

/-- Bot.queryBotAction (retry-via-recursion): try the Oracle once; on an
exception, if retries remain, sleep 1000 ms and recurse with one retry
fewer; with no retries left, rethrow the error.  The Oracle is embedded
as a map from the attempt index to the outcome of that invocation. -/
def queryBotAction (oracle : Nat → Except String BotAction) :
    Nat → Nat → QueryTrace
  | attempt, retries =>
    match oracle attempt with
    | Except.ok a => { result := Except.ok a, attempts := 1, delays := [] }
    | Except.error e =>
      match retries with
      | 0 => { result := Except.error e, attempts := 1, delays := [] }
      | r + 1 =>
        let t := queryBotAction oracle (attempt + 1) r
        { result := t.result, attempts := t.attempts + 1, delays := 1000 :: t.delays }

/-- Guidance displayed by Bot.displayFallbackAdvice: check if possible,
otherwise fold, given the list of currently available actions gathered by
Bot.getValidActions. -/
def fallbackSuggestedAction (available : List ActionKind) : ActionKind :=
  if available.contains ActionKind.check then ActionKind.check else ActionKind.fold

/-- Outcome of one advisory turn of Bot.advisoryOneHand: either the AI
recommendation is displayed, or the fallback advice is. -/
inductive TurnAdvice where
  | recommendation (a : BotAction)
  | fallback (suggested : ActionKind)
deriving DecidableEq, Repr

/-- The try/catch around queryBotAction in Bot.advisoryOneHand: a
successful query is displayed as the recommendation; a query failure is
caught and displayFallbackAdvice is shown instead. -/
def advisoryTurnAdvice (oracle : Nat → Except String BotAction)
    (retries : Nat) (available : List ActionKind) : TurnAdvice :=
  match (queryBotAction oracle 0 retries).result with
  | Except.ok a => TurnAdvice.recommendation a
  | Except.error _ => TurnAdvice.fallback (fallbackSuggestedAction available)

/-- Response-handling core of ManualChatGPTService.query: the
bot_action starts as the default fold literal; a non-empty pasted
response is run through parseResponse inside a try/catch whose catch
keeps the default.  parseResponse itself (helpers/ai-query-helper.ts) is
absent from src and is abstracted as a parsing function parameter. -/
def manualChatGPTQueryAction (parseResponse : String → Except String BotAction)
    (text_content : String) : BotAction :=
  if text_content = "" then defaultFoldAction
  else
    match parseResponse text_content with
    | Except.ok a => a
    | Except.error _ => defaultFoldAction

/-- Bot.isHandOver: the hand is over when at most one non-folded player
remains, or when all five community cards are out and nobody holds the
current turn. -/
def isHandOver (gameState : GameState) : Bool :=
  let activePlayers := (gameState.players.filter (fun p => !p.isFolded)).length
  let isShowdown := gameState.communityCards.length == 5
  decide (activePlayers ≤ 1) ||
    (isShowdown && !(gameState.players.any (fun p => p.isCurrentTurn)))

/-- Chip size passed to the actuator by Bot.performBotAction for each
action kind: bet and raise use the Oracle-proposed size converted to
chips; all-in recomputes the size from the current hero stack; call,
check and fold carry no size. -/
def performBotActionBetSize (bot_action : BotAction)
    (heroStackBB big_blind : ℚ) : Option ℚ :=
  match bot_action.action_str with
  | ActionKind.bet => some (convertToValue bot_action.bet_size_in_BBs big_blind)
  | ActionKind.raise => some (convertToValue bot_action.bet_size_in_BBs big_blind)
  | ActionKind.allIn => some (convertToValue heroStackBB big_blind)
  | ActionKind.call => none
  | ActionKind.check => none
  | ActionKind.fold => none

/-- One raw log line of the feed, keyed by its creation id (the source
keys lines by a created-timestamp string; ids here are naturals with 0
reserved for the empty initial watermark). -/
structure LogLine where
  id : Nat
  text : String
deriving DecidableEq, Repr

/-- ProcessedLogs record threaded through Bot.advisoryOneHand: the
accumulated valid messages, the watermark last_created, and the
first_fetch flag. -/
structure ProcessedLogs where
  valid_msgs : List String
  last_created : Nat
  first_fetch : Bool
deriving DecidableEq, Repr

/-- Lines fetched by one log pull: all lines on the first fetch,
otherwise only the lines created strictly after the watermark. -/
def fetchedLines (feed : List LogLine) (last_created : Nat)
    (first_fetch : Bool) : List LogLine :=
  if first_fetch then feed
  else feed.filter (fun l => decide (last_created < l.id))

/-- Modelled from the spec: the body of Bot.pullAndProcessLogs is absent
from src (only its call sites in Bot.advisoryOneHand are present);
section 4.3 has it fetch all lines after the watermark (all lines when
first_fetch), advance last_created to the newest fetched id, and clear
first_fetch. -/
def pullAndProcessLogs (feed : List LogLine) (last_created : Nat)
    (first_fetch : Bool) : ProcessedLogs :=
  let fetched := fetchedLines feed last_created first_fetch
  { valid_msgs := fetched.map (fun l => l.text)
    last_created := fetched.foldl (fun acc l => max acc l.id) last_created
    first_fetch := false }

/-- Cursor literal at the top of Bot.advisoryOneHand, re-created at the
start of every hand: empty valid_msgs, last_created set to the
constructor-initialised session field first_created, first_fetch true. -/
def initialHandCursor (first_created : Nat) : ProcessedLogs :=
  { valid_msgs := [], last_created := first_created, first_fetch := true }

/-- Cursor after a number of in-hand pulls of the monitoring loop of
Bot.advisoryOneHand, each performed as
pullAndProcessLogs(processed_logs.last_created, processed_logs.first_fetch). -/
def midPullsCursor (feed : List LogLine) : Nat → ProcessedLogs → ProcessedLogs
  | 0, c => c
  | n + 1, c =>
    midPullsCursor feed n (pullAndProcessLogs feed c.last_created c.first_fetch)

/-- Watermark and first_fetch arguments passed to pullAndProcessLogs by
the successive in-hand pulls of the monitoring loop of
Bot.advisoryOneHand. -/
def midPullsArgs (feed : List LogLine) : Nat → ProcessedLogs → List (Nat × Bool)
  | 0, _ => []
  | n + 1, c =>
    (c.last_created, c.first_fetch) ::
      midPullsArgs feed n (pullAndProcessLogs feed c.last_created c.first_fetch)

/-- Arguments of every pullAndProcessLogs call made during one run of
Bot.advisoryOneHand with the given number of hero turns: the in-hand
pulls, then the end-of-hand pull which passes this.first_created and the
current first_fetch flag. -/
def advisoryHandPullArgs (feed : List LogLine) (first_created turns : Nat) :
    List (Nat × Bool) :=
  let c0 := initialHandCursor first_created
  midPullsArgs feed turns c0 ++
    [(first_created, (midPullsCursor feed turns c0).first_fetch)]

/-- Cursor produced by the end-of-hand pull of Bot.advisoryOneHand:
pullAndProcessLogs(this.first_created, processed_logs.first_fetch). -/
def advisoryHandFinal (feed : List LogLine) (first_created turns : Nat) :
    ProcessedLogs :=
  let c := midPullsCursor feed turns (initialHandCursor first_created)
  pullAndProcessLogs feed first_created c.first_fetch

namespace PuppeteerService

/-- Abstract state of the browser page as seen through the puppeteer
operations used by the action primitives of
services/puppeteer-service.ts.  Each operation either completes or
throws, modelled by the Except error channel; currentBetValue stands for
the textContent read of the hero bet element together with its
isNaN-guarded parseFloat. -/
structure PageOps where
  waitForSelector : String → Except String Unit
  evalClick : String → Except String Unit
  evalText : String → Except String String
  focus : String → Except String Unit
  typeText : String → Except String Unit
  currentBetValue : Except String ℚ

/-- Selector of the call button. -/
def selCall : String := ".game-decisions-ctn > .action-buttons > .call"

/-- Selector of the fold button. -/
def selFold : String := ".game-decisions-ctn > .action-buttons > .fold"

/-- Selector of the check button. -/
def selCheck : String := ".game-decisions-ctn > .action-buttons > .check"

/-- Selector of the raise button. -/
def selRaise : String := ".game-decisions-ctn > .action-buttons > .raise"

/-- Selector of the raise amount input. -/
def selRaiseInput : String := ".game-decisions-ctn > form > .raise-bet-value > div > input"

/-- Selector of the bet submit button. -/
def selBetSubmit : String := ".game-decisions-ctn > form > .action-buttons > .bet"

/-- Selector of the hero bet value element. -/
def selYouBetValue : String := ".you-player > .table-player-bet-value"

/-- Try block of PuppeteerService.call: a single click on the call
button. -/
def callBody (page : PageOps) : Except String Unit :=
  page.evalClick selCall

/-- PuppeteerService.call: the try block, with every thrown error caught
and converted into an error Response. -/
def call (page : PageOps) : Except String (Response Unit) :=
  match callBody page with
  | Except.ok _ => Except.ok (Response.success () "Successfully executed call action.")
  | Except.error _ => Except.ok (Response.error "Failed to execute call action.")

/-- Try block of PuppeteerService.fold: wait for the fold button, then
click it. -/
def foldBody (page : PageOps) : Except String Unit :=
  match page.waitForSelector selFold with
  | Except.error e => Except.error e
  | Except.ok _ => page.evalClick selFold

/-- PuppeteerService.fold: the try block, with every thrown error caught
and converted into an error Response. -/
def fold (page : PageOps) : Except String (Response Unit) :=
  match foldBody page with
  | Except.ok _ => Except.ok (Response.success () "Successfully executed fold action.")
  | Except.error _ => Except.ok (Response.error "No option to fold available.")

/-- Try block of PuppeteerService.check: wait for the check button, then
click it. -/
def checkBody (page : PageOps) : Except String Unit :=
  match page.waitForSelector selCheck with
  | Except.error e => Except.error e
  | Except.ok _ => page.evalClick selCheck

/-- PuppeteerService.check: the try block, with every thrown error
caught and converted into an error Response. -/
def check (page : PageOps) : Except String (Response Unit) :=
  match checkBody page with
  | Except.ok _ => Except.ok (Response.success () "Successfully executed check action.")
  | Except.error _ => Except.ok (Response.error "No option to check available.")

/-- PuppeteerService.getCurrentBet: waits for the hero bet element and
reads its value; every thrown error is caught and converted into an
error Response. -/
def getCurrentBet (page : PageOps) : Response ℚ :=
  match page.waitForSelector selYouBetValue with
  | Except.error _ => Response.error "No existing bet amount found."
  | Except.ok _ =>
    match page.currentBetValue with
    | Except.error _ => Response.error "No existing bet amount found."
    | Except.ok v =>
      Response.success v "Successfully retrieved current bet amount."

/-- Try block of PuppeteerService.betOrRaise: read the raise button
label, click it, add the current bet to the amount when the label is
Raise and getCurrentBet succeeds, then type the amount and submit. -/
def betOrRaiseBody (page : PageOps) (bet_amount : ℚ) : Except String Unit :=
  match page.evalText selRaise with
  | Except.error e => Except.error e
  | Except.ok bet_action =>
    match page.evalClick selRaise with
    | Except.error e => Except.error e
    | Except.ok _ =>
      let amt :=
        if bet_action = "Raise" then
          match getCurrentBet page with
          | Response.success current_bet _ => bet_amount + current_bet
          | Response.error _ => bet_amount
        else bet_amount
      match page.waitForSelector selRaiseInput with
      | Except.error e => Except.error e
      | Except.ok _ =>
        match page.focus selRaiseInput with
        | Except.error e => Except.error e
        | Except.ok _ =>
          match page.typeText (toString amt) with
          | Except.error e => Except.error e
          | Except.ok _ =>
            match page.waitForSelector selBetSubmit with
            | Except.error e => Except.error e
            | Except.ok _ => page.evalClick selBetSubmit

/-- PuppeteerService.betOrRaise: the try block, with every thrown error
caught and converted into an error Response. -/
def betOrRaise (page : PageOps) (bet_amount : ℚ) : Except String (Response Unit) :=
  match betOrRaiseBody page bet_amount with
  | Except.ok _ =>
    Except.ok (Response.success ()
      ("Successfully executed bet action with amount " ++ toString bet_amount ++ "."))
  | Except.error _ =>
    Except.ok (Response.error
      ("Failed to bet with amount " ++ toString bet_amount ++ "."))

/-- Seating interactions that PuppeteerService.sendEnterTableRequest can
attempt against the page. -/
inductive SeatStep where
  | clickSeat
  | typeName
  | typeStack
  | submitJoin
  | confirmDialog
deriving DecidableEq, Repr

/-- Abstract page state for the seating flow of
PuppeteerService.sendEnterTableRequest: the outcome of each stage of the
join handshake, and whether a uniqueness error message is shown when the
confirmation fails. -/
structure SeatPage where
  seatAvailable : Except String Unit
  nameInputOk : Except String Unit
  stackInputOk : Except String Unit
  joinClickOk : Except String Unit
  confirmOk : Except String Unit
  uniqueNameError : Bool

/-- PuppeteerService.sendEnterTableRequest: skip with success when
already seated or in observe-only mode; reject names shorter than 2 or
longer than 14 characters before touching the page; otherwise run the
seating handshake, recording every attempted interaction. -/
def sendEnterTableRequest (seated observe_only : Bool) (page : SeatPage)
    (name : String) (stack_size : ℚ) : Response Unit × List SeatStep :=
  if seated then
    (Response.success () "Already seated; skipping join.", [])
  else if observe_only then
    (Response.success () "Observation mode enabled; skipping join.", [])
  else if name.length < 2 ∨ 14 < name.length then
    (Response.error "Player name must be betwen 2 and 14 characters long.", [])
  else
    match page.seatAvailable with
    | Except.error e => (Response.error e, [SeatStep.clickSeat])
    | Except.ok _ =>
      match page.nameInputOk with
      | Except.error e =>
        (Response.error e, [SeatStep.clickSeat, SeatStep.typeName])
      | Except.ok _ =>
        match page.stackInputOk with
        | Except.error e =>
          (Response.error e,
            [SeatStep.clickSeat, SeatStep.typeName, SeatStep.typeStack])
        | Except.ok _ =>
          match page.joinClickOk with
          | Except.error e =>
            (Response.error e,
              [SeatStep.clickSeat, SeatStep.typeName, SeatStep.typeStack,
                SeatStep.submitJoin])
          | Except.ok _ =>
            match page.confirmOk with
            | Except.ok _ =>
              (Response.success () "Table ingress request successfully sent.",
                [SeatStep.clickSeat, SeatStep.typeName, SeatStep.typeStack,
                  SeatStep.submitJoin, SeatStep.confirmDialog])
            | Except.error _ =>
              let msg :=
                if page.uniqueNameError then "Player name must be unique to game."
                else "Table ingress unsuccessful."
              (Response.error msg,
                [SeatStep.clickSeat, SeatStep.typeName, SeatStep.typeStack,
                  SeatStep.submitJoin, SeatStep.confirmDialog])

/-- Seat page on which every stage of the join handshake succeeds. -/
def allOkSeatPage : SeatPage :=
  { seatAvailable := Except.ok (), nameInputOk := Except.ok ()
    stackInputOk := Except.ok (), joinClickOk := Except.ok ()
    confirmOk := Except.ok (), uniqueNameError := false }

/-- Page on which every puppeteer operation succeeds; the raise button
is labelled Raise and the current hero bet reads 3. -/
def allOkPage : PageOps :=
  { waitForSelector := fun _ => Except.ok ()
    evalClick := fun _ => Except.ok ()
    evalText := fun _ => Except.ok "Raise"
    focus := fun _ => Except.ok ()
    typeText := fun _ => Except.ok ()
    currentBetValue := Except.ok 3 }

end PuppeteerService

/-- Parser that rejects every response, exhibiting an Oracle reply that
cannot be parsed into one of the known action kinds. -/
def failParse : String → Except String BotAction :=
  fun _ => Except.error "Unrecognized action."

/-- Hand snapshot with two active players, a five-card board and nobody
on turn. -/
def sampleShowdownState : GameState :=
  { players :=
      [ { seat := 1, name := "hero", stack := 100, bet := 0, isSelf := true
          isDealer := false, isCurrentTurn := false, isFolded := false
          isAllIn := false, holeCards := ["As", "Kd"] }
      , { seat := 2, name := "villain", stack := 80, bet := 0, isSelf := false
          isDealer := true, isCurrentTurn := false, isFolded := false
          isAllIn := false, holeCards := [] } ]
    communityCards := ["2c", "7d", "9h", "Js", "Qd"]
    pot := 12 }

/- Helper lemmas -/

theorem le_foldl_max (l : List LogLine) :
    ∀ a : Nat, a ≤ List.foldl (fun acc x => max acc x.id) a l := by
  induction l with
  | nil => intro a; simp
  | cons x t ih =>
    intro a
    rw [List.foldl_cons]
    exact le_trans (le_max_left a x.id) (ih (max a x.id))

theorem pull_last_created_ge (feed : List LogLine) (w : Nat) (ff : Bool) :
    w ≤ (pullAndProcessLogs feed w ff).last_created := by
  simpa [pullAndProcessLogs] using le_foldl_max (fetchedLines feed w ff) w

theorem midPullsArgs_ge (feed : List LogLine) :
    ∀ (n : Nat) (c : ProcessedLogs),
      ∀ p ∈ midPullsArgs feed n c, c.last_created ≤ p.1 := by
  intro n
  induction n with
  | zero => intro c p hp; simp [midPullsArgs] at hp
  | succ m ih =>
    intro c p hp
    simp only [midPullsArgs, List.mem_cons] at hp
    rcases hp with h | h
    · subst h; exact le_refl _
    · exact le_trans (pull_last_created_ge feed c.last_created c.first_fetch)
        (ih _ p h)

theorem midPullsArgs_pairwise (feed : List LogLine) :
    ∀ (n : Nat) (c : ProcessedLogs),
      ((midPullsArgs feed n c).map Prod.fst).Pairwise (· ≤ ·) := by
  intro n
  induction n with
  | zero => intro c; simp [midPullsArgs]
  | succ m ih =>
    intro c
    simp only [midPullsArgs, List.map_cons]
    refine List.Pairwise.cons ?_ (ih _)
    intro x hx
    simp only [List.mem_map] at hx
    obtain ⟨p, hp, rfl⟩ := hx
    exact le_trans (pull_last_created_ge feed c.last_created c.first_fetch)
      (midPullsArgs_ge feed m _ p hp)

theorem queryBotAction_of_ok (oracle : Nat → Except String BotAction)
    (a r : Nat) (v : BotAction) (h : oracle a = Except.ok v) :
    queryBotAction oracle a r =
      { result := Except.ok v, attempts := 1, delays := [] } := by
  unfold queryBotAction
  rw [h]

theorem queryBotAction_of_err_zero (oracle : Nat → Except String BotAction)
    (a : Nat) (e : String) (h : oracle a = Except.error e) :
    queryBotAction oracle a 0 =
      { result := Except.error e, attempts := 1, delays := [] } := by
  unfold queryBotAction
  rw [h]

theorem queryBotAction_of_err_succ (oracle : Nat → Except String BotAction)
    (a r : Nat) (e : String) (h : oracle a = Except.error e) :
    queryBotAction oracle a (r + 1) =
      { result := (queryBotAction oracle (a + 1) r).result
        attempts := (queryBotAction oracle (a + 1) r).attempts + 1
        delays := 1000 :: (queryBotAction oracle (a + 1) r).delays } := by
  conv =>
    lhs
    unfold queryBotAction
  rw [h]

theorem queryBotAction_attempts_le (oracle : Nat → Except String BotAction) :
    ∀ r a, (queryBotAction oracle a r).attempts ≤ r + 1 := by
  intro r
  induction r with
  | zero =>
    intro a
    cases h : oracle a with
    | ok v => rw [queryBotAction_of_ok oracle a 0 v h]
    | error e => rw [queryBotAction_of_err_zero oracle a e h]
  | succ m ih =>
    intro a
    cases h : oracle a with
    | ok v =>
      rw [queryBotAction_of_ok oracle a (m + 1) v h]
      show 1 ≤ m + 1 + 1
      omega
    | error e =>
      rw [queryBotAction_of_err_succ oracle a m e h]
      have := ih (a + 1)
      simp only
      omega

theorem queryBotAction_delays_spec (oracle : Nat → Except String BotAction) :
    ∀ r a,
      (∀ d ∈ (queryBotAction oracle a r).delays, d = 1000) ∧
      (queryBotAction oracle a r).delays.length + 1
        = (queryBotAction oracle a r).attempts := by
  intro r
  induction r with
  | zero =>
    intro a
    cases h : oracle a with
    | ok v => rw [queryBotAction_of_ok oracle a 0 v h]; simp
    | error e => rw [queryBotAction_of_err_zero oracle a e h]; simp
  | succ m ih =>
    intro a
    cases h : oracle a with
    | ok v => rw [queryBotAction_of_ok oracle a (m + 1) v h]; simp
    | error e =>
      rw [queryBotAction_of_err_succ oracle a m e h]
      obtain ⟨hall, hlen⟩ := ih (a + 1)
      constructor
      · intro d hd
        simp only [List.mem_cons] at hd
        rcases hd with rfl | hd
        · rfl
        · exact hall d hd
      · simp only [List.length_cons]
        omega

theorem queryBotAction_error_spec (oracle : Nat → Except String BotAction) :
    ∀ r a,
      (queryBotAction oracle a r).result.isOk = false →
        (queryBotAction oracle a r).attempts = r + 1 ∧
        ∀ i, i ≤ r → (oracle (a + i)).isOk = false := by
  intro r
  induction r with
  | zero =>
    intro a h
    cases ho : oracle a with
    | ok v => rw [queryBotAction_of_ok oracle a 0 v ho] at h; simp [Except.isOk, Except.toBool] at h
    | error e =>
      rw [queryBotAction_of_err_zero oracle a e ho]
      refine ⟨rfl, ?_⟩
      intro i hi
      interval_cases i
      simpa [Except.isOk, Except.toBool] using congrArg Except.toBool ho
  | succ m ih =>
    intro a h
    cases ho : oracle a with
    | ok v => rw [queryBotAction_of_ok oracle a (m + 1) v ho] at h; simp [Except.isOk, Except.toBool] at h
    | error e =>
      rw [queryBotAction_of_err_succ oracle a m e ho] at h ⊢
      simp only at h ⊢
      obtain ⟨hat, hall⟩ := ih (a + 1) h
      refine ⟨by omega, ?_⟩
      intro i hi
      cases i with
      | zero => simpa [Except.isOk, Except.toBool] using congrArg Except.toBool ho
      | succ j =>
        have hj : j ≤ m := by omega
        have := hall j hj
        have harith : a + (j + 1) = a + 1 + j := by omega
        rw [harith]
        exact this

theorem queryBotAction_allFail (oracle : Nat → Except String BotAction)
    (h : ∀ i, (oracle i).isOk = false) :
    ∀ r a,
      (queryBotAction oracle a r).attempts = r + 1 ∧
      (queryBotAction oracle a r).result.isOk = false := by
  intro r
  induction r with
  | zero =>
    intro a
    cases ho : oracle a with
    | ok v =>
      have := h a
      rw [ho] at this
      simp [Except.isOk, Except.toBool] at this
    | error e =>
      rw [queryBotAction_of_err_zero oracle a e ho]
      exact ⟨rfl, rfl⟩
  | succ m ih =>
    intro a
    cases ho : oracle a with
    | ok v =>
      have := h a
      rw [ho] at this
      simp [Except.isOk, Except.toBool] at this
    | error e =>
      rw [queryBotAction_of_err_succ oracle a m e ho]
      obtain ⟨hat, hres⟩ := ih (a + 1)
      simp only
      exact ⟨by omega, hres⟩

/- Claim theorems -/

/-- Claim C6: computeTimeout(num_players, max_turn_length, num_streets)
equals 1000 * (num_players - 1) * max_turn_length * num_streets
milliseconds for all inputs; in particular computeTimeout(6, 30, 4) is
600000. -/
theorem computeTimeout_formula (num_players max_turn_length num_streets : ℤ) :
    computeTimeout num_players max_turn_length num_streets
      = 1000 * (num_players - 1) * max_turn_length * num_streets
  ∧ computeTimeout 6 30 4 = 600000 := by
  constructor
  · rfl
  · norm_num [computeTimeout]

/-- Witness for C6 at num_players 6, max_turn_length 30, num_streets 4. -/
theorem computeTimeout_formula_witness : computeTimeout 6 30 4 = 600000 :=
  (computeTimeout_formula 6 30 4).2

/-- Claim C7: for chips x and big blind bb, converting to big blinds and
back returns x exactly when bb is positive (hence within the 1e-6
tolerance), and each checked conversion succeeds exactly when bb is
positive. -/
theorem valueConversion_round_trip (x bb : ℚ) :
    (0 < bb → roundTrip x bb = Except.ok x)
  ∧ (∀ y, roundTrip x bb = Except.ok y → |y - x| ≤ 1 / 1000000)
  ∧ ((convertToBBsChecked x bb).isOk = true ↔ ¬bb ≤ 0)
  ∧ ((convertToValueChecked x bb).isOk = true ↔ ¬bb ≤ 0) := by
  by_cases hb : bb ≤ 0
  · refine ⟨fun hpos => absurd hb (not_le.mpr hpos), ?_, ?_, ?_⟩
    · intro y hy
      simp [roundTrip, convertToBBsChecked, hb] at hy
    · simp [convertToBBsChecked, hb, Except.isOk, Except.toBool]
    · simp [convertToValueChecked, hb, Except.isOk, Except.toBool]
  · have hne : bb ≠ 0 := fun h0 => hb (le_of_eq h0)
    have hrt : roundTrip x bb = Except.ok x := by
      simp [roundTrip, convertToBBsChecked, convertToValueChecked, hb,
        div_mul_cancel₀ x hne]
    refine ⟨fun _ => hrt, ?_, ?_, ?_⟩
    · intro y hy
      rw [hrt] at hy
      cases hy
      simp
    · simp [convertToBBsChecked, hb, Except.isOk, Except.toBool]
    · simp [convertToValueChecked, hb, Except.isOk, Except.toBool]

/-- Witness for C7 at chips 5 and big blind 2. -/
theorem valueConversion_round_trip_witness : roundTrip 5 2 = Except.ok 5 :=
  (valueConversion_round_trip 5 2).1 (by norm_num)

/-- Claim C4: for a BotAction whose kind is all-in, the executed chip
size equals the current hero stack converted with the current big blind,
regardless of the Oracle-proposed bet_size_in_BBs. -/
theorem performBotAction_allin_size (a : BotAction) (heroStackBB big_blind : ℚ)
    (h : a.action_str = ActionKind.allIn) :
    performBotActionBetSize a heroStackBB big_blind
      = some (convertToValue heroStackBB big_blind)
  ∧ ∀ proposed : ℚ,
      performBotActionBetSize
          { action_str := ActionKind.allIn, bet_size_in_BBs := proposed }
          heroStackBB big_blind
        = some (convertToValue heroStackBB big_blind) := by
  constructor
  · simp [performBotActionBetSize, h]
  · intro proposed
    simp [performBotActionBetSize]

/-- Witness for C4: an all-in action with proposed size 77 but hero
stack 12 BB at big blind 2 is executed for 24 chips, the full stack. -/
theorem performBotAction_allin_size_witness :
    performBotActionBetSize
        { action_str := ActionKind.allIn, bet_size_in_BBs := 77 } 12 2
      = some (convertToValue 12 2) :=
  (performBotAction_allin_size
    { action_str := ActionKind.allIn, bet_size_in_BBs := 77 } 12 2 rfl).1

/-- Counterexample to C3: a response every parser rejects is not
surfaced as an error by ManualChatGPTService.query; the parse failure is
caught and the default fold BotAction is returned to the caller. -/
theorem manualQuery_coerces_unparseable_to_fold :
    failParse "gibberish that is no action" = Except.error "Unrecognized action."
  ∧ manualChatGPTQueryAction failParse "gibberish that is no action"
      = defaultFoldAction := by
  exact ⟨rfl, rfl⟩

/-- Claim C3 amended: a pasted response that is empty or that
parseResponse rejects is coerced to the default fold action by
ManualChatGPTService.query; the parse failure is logged but not surfaced
to the caller. -/
theorem manualQuery_defaults_to_fold
    (parseResponse : String → Except String BotAction) (text_content : String)
    (h : text_content = "" ∨ ∃ e, parseResponse text_content = Except.error e) :
    manualChatGPTQueryAction parseResponse text_content = defaultFoldAction := by
  rcases h with h | ⟨e, he⟩
  · simp [manualChatGPTQueryAction, h]
  · unfold manualChatGPTQueryAction
    rw [he]
    by_cases ht : text_content = "" <;> simp [ht]

/-- Witness for the amended C3 at a concrete rejected response. -/
theorem manualQuery_defaults_to_fold_witness :
    manualChatGPTQueryAction failParse "all of it" = defaultFoldAction :=
  manualQuery_defaults_to_fold failParse "all of it"
    (Or.inr ⟨"Unrecognized action.", rfl⟩)

/-- Claim C9: isHandOver holds exactly when at most one non-folded
player remains, or all five community cards are showing and no player is
marked as having the current turn. -/
theorem isHandOver_characterisation (gameState : GameState) :
    isHandOver gameState = true ↔
      ((gameState.players.filter (fun p => !p.isFolded)).length ≤ 1
        ∨ (gameState.communityCards.length = 5
            ∧ ∀ p ∈ gameState.players, p.isCurrentTurn = false)) := by
  simp [isHandOver, List.any_eq_true, Bool.not_eq_true]

/-- Witness for C9 at a concrete showdown snapshot: two active players,
a full board and nobody on turn. -/
theorem isHandOver_characterisation_witness :
    isHandOver sampleShowdownState = true ↔
      ((sampleShowdownState.players.filter (fun p => !p.isFolded)).length ≤ 1
        ∨ (sampleShowdownState.communityCards.length = 5
            ∧ ∀ p ∈ sampleShowdownState.players, p.isCurrentTurn = false)) :=
  isHandOver_characterisation sampleShowdownState

/-- Claim C2: queryBotAction invokes the Oracle at most retries + 1
times, sleeps the fixed 1000 ms back-off between consecutive attempts
(one delay fewer than attempts), fails only once every one of the
retries + 1 attempts has failed, and with retries 2 against an Oracle
that always fails makes exactly 3 attempts before the failure is
raised. -/
theorem queryBotAction_retry_budget (oracle : Nat → Except String BotAction)
    (retries : Nat) :
    (queryBotAction oracle 0 retries).attempts ≤ retries + 1
  ∧ (∀ d ∈ (queryBotAction oracle 0 retries).delays, d = 1000)
  ∧ (queryBotAction oracle 0 retries).delays.length + 1
      = (queryBotAction oracle 0 retries).attempts
  ∧ ((queryBotAction oracle 0 retries).result.isOk = false →
        (queryBotAction oracle 0 retries).attempts = retries + 1
      ∧ ∀ i, i ≤ retries → (oracle i).isOk = false)
  ∧ ((∀ i, (oracle i).isOk = false) →
        (queryBotAction oracle 0 2).attempts = 3
      ∧ (queryBotAction oracle 0 2).result.isOk = false) := by
  refine ⟨queryBotAction_attempts_le oracle retries 0,
    (queryBotAction_delays_spec oracle retries 0).1,
    (queryBotAction_delays_spec oracle retries 0).2, ?_, ?_⟩
  · intro h
    obtain ⟨hat, hall⟩ := queryBotAction_error_spec oracle retries 0 h
    refine ⟨hat, ?_⟩
    intro i hi
    simpa using hall i hi
  · intro h
    exact queryBotAction_allFail oracle h 2 0

/-- Witness for C2: with retries 2 against an always-failing Oracle,
exactly 3 attempts are made and the failure is raised. -/
theorem queryBotAction_retry_budget_witness :
    (queryBotAction (fun _ => Except.error "oracle unavailable") 0 2).attempts = 3
  ∧ (queryBotAction (fun _ => Except.error "oracle unavailable") 0 2).result.isOk
      = false :=
  (queryBotAction_retry_budget (fun _ => Except.error "oracle unavailable") 2).2.2.2.2
    (fun _ => rfl)

/-- Claim C5: when every Oracle attempt fails, the advisory turn does
not crash and does not keep retrying: the query stops after retries + 1
attempts and the fallback advice is presented, suggesting check when
checking is available and fold otherwise. -/
theorem fallback_on_decision_unavailable (oracle : Nat → Except String BotAction)
    (retries : Nat) (available : List ActionKind)
    (h : ∀ i, (oracle i).isOk = false) :
    advisoryTurnAdvice oracle retries available
      = TurnAdvice.fallback
          (if available.contains ActionKind.check then ActionKind.check
            else ActionKind.fold)
  ∧ (queryBotAction oracle 0 retries).attempts = retries + 1 := by
  obtain ⟨hat, hres⟩ := queryBotAction_allFail oracle h retries 0
  refine ⟨?_, hat⟩
  unfold advisoryTurnAdvice
  cases hr : (queryBotAction oracle 0 retries).result with
  | ok a => rw [hr] at hres; simp [Except.isOk, Except.toBool] at hres
  | error e => simp [fallbackSuggestedAction]

/-- Witness for C5: an always-failing Oracle with one retry and check
among the available actions yields the fallback advice check after two
attempts. -/
theorem fallback_on_decision_unavailable_witness :
    advisoryTurnAdvice (fun _ => Except.error "oracle down") 1
        [ActionKind.check, ActionKind.fold]
      = TurnAdvice.fallback ActionKind.check
  ∧ (queryBotAction (fun _ => Except.error "oracle down") 0 1).attempts = 1 + 1 := by
  have h := fallback_on_decision_unavailable (fun _ => Except.error "oracle down") 1
    [ActionKind.check, ActionKind.fold] (fun _ => rfl)
  simpa using h

/-- Claim C8: each per-action Observer primitive of PuppeteerService
(check, call, fold, betOrRaise) returns a success-or-error Response for
every page state and bet amount; no exception ever escapes to the
caller, since every throwing page operation sits inside the catch. -/
theorem action_primitives_never_throw (page : PuppeteerService.PageOps)
    (bet_amount : ℚ) :
    (∃ r, PuppeteerService.check page = Except.ok r)
  ∧ (∃ r, PuppeteerService.call page = Except.ok r)
  ∧ (∃ r, PuppeteerService.fold page = Except.ok r)
  ∧ (∃ r, PuppeteerService.betOrRaise page bet_amount = Except.ok r) := by
  refine ⟨?_, ?_, ?_, ?_⟩
  · unfold PuppeteerService.check
    cases PuppeteerService.checkBody page <;> exact ⟨_, rfl⟩
  · unfold PuppeteerService.call
    cases PuppeteerService.callBody page <;> exact ⟨_, rfl⟩
  · unfold PuppeteerService.fold
    cases PuppeteerService.foldBody page <;> exact ⟨_, rfl⟩
  · unfold PuppeteerService.betOrRaise
    cases PuppeteerService.betOrRaiseBody page bet_amount <;> exact ⟨_, rfl⟩

/-- Witness for C8 on the page where every operation succeeds and a bet
amount of 10. -/
theorem action_primitives_never_throw_witness :
    (∃ r, PuppeteerService.check PuppeteerService.allOkPage = Except.ok r)
  ∧ (∃ r, PuppeteerService.call PuppeteerService.allOkPage = Except.ok r)
  ∧ (∃ r, PuppeteerService.fold PuppeteerService.allOkPage = Except.ok r)
  ∧ (∃ r, PuppeteerService.betOrRaise PuppeteerService.allOkPage 10 = Except.ok r) :=
  action_primitives_never_throw PuppeteerService.allOkPage 10

/-- Claim C10: a name shorter than 2 or longer than 14 characters makes
sendEnterTableRequest return an error Response before any seating
interaction is attempted, when the hero is not already seated and
observe-only mode is off. -/
theorem sendEnterTableRequest_rejects_bad_name
    (page : PuppeteerService.SeatPage) (name : String) (stack_size : ℚ)
    (h : name.length < 2 ∨ 14 < name.length) :
    PuppeteerService.sendEnterTableRequest false false page name stack_size
      = (Response.error "Player name must be betwen 2 and 14 characters long.",
          []) := by
  unfold PuppeteerService.sendEnterTableRequest
  simp only [Bool.false_eq_true, if_false]
  rw [if_pos h]

/-- Witness for C10: the one-character name x is rejected with no
seating interaction on a page where every stage would succeed. -/
theorem sendEnterTableRequest_rejects_bad_name_witness :
    PuppeteerService.sendEnterTableRequest false false
        PuppeteerService.allOkSeatPage "x" 500
      = (Response.error "Player name must be betwen 2 and 14 characters long.",
          []) :=
  sendEnterTableRequest_rejects_bad_name PuppeteerService.allOkSeatPage "x" 500
    (Or.inl (by decide))

/-- Counterexample to C1: in a hand with two hero turns over the feed
with lines 1 and 2, the watermarks passed to pullAndProcessLogs by
Bot.advisoryOneHand are 0, 2, 0 - the end-of-hand pull re-passes the
session-initial first_created 0 after the in-hand watermark reached 2,
so the sequence is not monotone and line 1 is fetched by both the first
in-hand pull and the end-of-hand pull. -/
theorem advisoryHand_watermark_not_monotonic :
    (advisoryHandPullArgs [LogLine.mk 1 "a", LogLine.mk 2 "b"] 0 2).map Prod.fst
      = [0, 2, 0]
  ∧ ¬(((advisoryHandPullArgs [LogLine.mk 1 "a", LogLine.mk 2 "b"] 0 2).map
        Prod.fst).Pairwise (· ≤ ·))
  ∧ LogLine.mk 1 "a" ∈ fetchedLines [LogLine.mk 1 "a", LogLine.mk 2 "b"] 0 true
  ∧ LogLine.mk 1 "a" ∈ fetchedLines [LogLine.mk 1 "a", LogLine.mk 2 "b"] 0
      (midPullsCursor [LogLine.mk 1 "a", LogLine.mk 2 "b"] 2
          (initialHandCursor 0)).first_fetch
  ∧ (advisoryHandFinal [LogLine.mk 1 "a", LogLine.mk 2 "b"] 0 2).last_created = 2
  ∧ (initialHandCursor 0).last_created = 0 := by
  refine ⟨rfl, ?_, ?_, ?_, rfl, rfl⟩
  · intro hpair
    have hx : (advisoryHandPullArgs [LogLine.mk 1 "a", LogLine.mk 2 "b"] 0 2).map
        Prod.fst = [0, 2, 0] := rfl
    rw [hx] at hpair
    simp [List.pairwise_cons] at hpair
  · decide
  · decide

/-- Claim C1 amended: Bot.advisoryOneHand re-creates the cursor at every
hand start with empty valid_msgs AND last_created reset to the
session-initial first_created; within the monitoring loop of one hand
the watermarks passed to pullAndProcessLogs never decrease, but the
end-of-hand pull passes first_created again, so every line after
first_created is re-fetched by it. -/
theorem advisoryHand_watermark_resets (feed : List LogLine)
    (first_created turns : Nat) :
    initialHandCursor first_created
      = { valid_msgs := [], last_created := first_created, first_fetch := true }
  ∧ ((midPullsArgs feed turns (initialHandCursor first_created)).map
      Prod.fst).Pairwise (· ≤ ·)
  ∧ (advisoryHandPullArgs feed first_created turns).getLast?
      = some (first_created,
          (midPullsCursor feed turns (initialHandCursor first_created)).first_fetch)
  ∧ ∀ l ∈ feed, first_created < l.id →
      l ∈ fetchedLines feed first_created
        (midPullsCursor feed turns (initialHandCursor first_created)).first_fetch := by
  refine ⟨rfl, midPullsArgs_pairwise feed turns _, ?_, ?_⟩
  · unfold advisoryHandPullArgs
    exact List.getLast?_concat _
  · intro l hl hlt
    unfold fetchedLines
    cases (midPullsCursor feed turns (initialHandCursor first_created)).first_fetch with
    | true => simpa using hl
    | false =>
      simp only [if_neg Bool.false_ne_true]
      exact List.mem_filter.mpr ⟨hl, by simpa using hlt⟩

/-- Witness for the amended C1: with the one-line feed and one hero
turn, the last pull of the hand passes the session-initial watermark 0
with first_fetch already cleared. -/
theorem advisoryHand_watermark_resets_witness :
    (advisoryHandPullArgs [LogLine.mk 1 "a"] 0 1).getLast? = some (0, false) := by
  have h := (advisoryHand_watermark_resets [LogLine.mk 1 "a"] 0 1).2.2.1
  simpa using h

end PKN
